import Mathlib

/-!
Shallow embedding of the screening & scoring engine of the Taiwan stock
screener: the indicator calculator (60-day moving average and the stochastic
%K/%D pair), the three-stage evaluator, the composite scoring function and
the ranking pipeline, together with theorems settling the specification's
claims about them.

The Go source stores every metric and price as `float64`; the
specification's data model declares them real numbers.  They are embedded
here as exact rationals (`ℚ`), so every arithmetic step of the source is
reproduced exactly and every comparison is decidable.
-/

namespace Lyla

/-- Fundamental and technical data of one candidate (Go struct `StockData`).
Field order and names follow the source. -/
structure StockData where
  Code : String
  Name : String
  Price : ℚ
  Volume : ℤ
  ROE : ℚ
  RevenueGrowth : ℚ
  DebtRatio : ℚ
  GrossMargin : ℚ
  DividendYears : ℤ
  YoYGrowth : ℚ
  EPSGrowth : ℚ
  EPS : ℚ
  MA60 : ℚ
  KValue : ℚ
  DValue : ℚ
  AvgVolume : ℤ
  Score : ℚ
deriving DecidableEq, Repr

/-- Screening thresholds (Go struct `ScreeningCriteria`). -/
structure ScreeningCriteria where
  MinROE : ℚ
  MinRevenueGrowth : ℚ
  MaxDebtRatio : ℚ
  MinDividendYears : ℤ
  MinYoYGrowth : ℚ
  MinEPSGrowth : ℚ
  MinEPS : ℚ
  RequireMA60Above : Bool
  MinKValue : ℚ
  MaxKValue : ℚ
  MinDValue : ℚ
  MaxDValue : ℚ
deriving DecidableEq, Repr

/-- The criteria record installed by `NewStockScreener`. -/
def defaultCriteria : ScreeningCriteria where
  MinROE := 8
  MinRevenueGrowth := -5
  MaxDebtRatio := 60
  MinDividendYears := 2
  MinYoYGrowth := 10
  MinEPSGrowth := 100
  MinEPS := 1
  RequireMA60Above := false
  MinKValue := 30
  MaxKValue := 85
  MinDValue := 30
  MaxDValue := 85

/-- Running maximum of a window, seeded with the window's first entry, as in
the Go loop `highest := highs[start]; for j ... if highs[j] > highest`. -/
def sliceMax (l : List ℚ) : ℚ := l.foldl max (l.headD 0)

/-- Running minimum of a window, seeded with the window's first entry. -/
def sliceMin (l : List ℚ) : ℚ := l.foldl min (l.headD 0)

/-- One iteration of the RSV loop of `calculateKDIndicator`: the raw
stochastic value over the trailing 9-sample window `[i-8, i]`, defined as 50
when the window's highest high equals its lowest low. -/
def rsvAt (closes highs lows : List ℚ) (i : ℕ) : ℚ :=
  let highest := sliceMax ((highs.drop (i - 8)).take 9)
  let lowest := sliceMin ((lows.drop (i - 8)).take 9)
  if highest = lowest then 50
  else (closes.getD i 0 - lowest) / (highest - lowest) * 100

/-- The %K/%D pair (Go struct `KDResult`). -/
structure KDResult where
  K : ℚ
  D : ℚ
deriving DecidableEq, Repr

/-- One smoothing step of the K/D loop of `calculateKDIndicator`:
`k = 2/3*k + 1/3*rsv` and then `d = 2/3*d + 1/3*k` with the updated `k`. -/
def kdStep (kd : KDResult) (rsv : ℚ) : KDResult :=
  let k := 2 / 3 * kd.K + 1 / 3 * rsv
  { K := k, D := 2 / 3 * kd.D + 1 / 3 * k }

/-- Go `calculateKDIndicator`: with fewer than 9 closes it returns the
neutral pair (50, 50); otherwise it folds `kdStep` over the RSV sequence of
the indices 8 … len-1, starting from K = D = 50. -/
def calculateKDIndicator (closes highs lows : List ℚ) : KDResult :=
  if closes.length < 9 then { K := 50, D := 50 }
  else
    let rsvs := (List.range' 8 (closes.length - 8)).map (rsvAt closes highs lows)
    if rsvs.isEmpty then { K := 50, D := 50 }
    else rsvs.foldl kdStep { K := 50, D := 50 }

/-- Go `calculateTechnicalIndicators`: returns the stock unchanged when any
of the three series is shorter than 60; otherwise it stores the 60-day
moving average of the closes, the K/D pair, and a zero average volume. -/
def calculateTechnicalIndicators (stock : StockData)
    (closes highs lows : List ℚ) : StockData :=
  if closes.length < 60 ∨ highs.length < 60 ∨ lows.length < 60 then stock
  else
    let minLen := min (min closes.length highs.length) lows.length
    let s1 :=
      if 60 ≤ minLen then
        { stock with
          MA60 := (((closes.drop (minLen - 60)).take 60).foldl (· + ·) 0) / 60 }
      else stock
    let s2 :=
      if 9 ≤ minLen then
        let kd := calculateKDIndicator closes highs lows
        { s1 with KValue := kd.K, DValue := kd.D }
      else s1
    { s2 with AvgVolume := 0 }

/-- Stage-1 exclusion reasons, one constructor per condition; the Go code
appends a formatted string, whose numeric payload is kept here. -/
inductive S1Reason where
  | roeNonPositive : S1Reason
  | debtTooHigh : ℚ → S1Reason
  | revenueDecline : ℚ → S1Reason
  | yoyDecline : ℚ → S1Reason
  | epsGrowthDecline : ℚ → S1Reason
  | epsNonPositive : S1Reason
deriving DecidableEq, Repr

/-- Go `checkStage1Fundamentals`: one reason per violated mandatory
condition, and the boolean `len(reasons) == 0`. -/
def checkStage1Fundamentals (stock : StockData) : Bool × List S1Reason :=
  let reasons : List S1Reason :=
    (if stock.ROE ≤ 0 then [.roeNonPositive] else []) ++
    (if stock.DebtRatio ≥ 80 then [.debtTooHigh stock.DebtRatio] else []) ++
    (if stock.RevenueGrowth ≤ -20 then [.revenueDecline stock.RevenueGrowth] else []) ++
    (if stock.YoYGrowth ≤ -30 then [.yoyDecline stock.YoYGrowth] else []) ++
    (if stock.EPSGrowth ≤ -50 then [.epsGrowthDecline stock.EPSGrowth] else []) ++
    (if stock.EPS ≤ 0 then [.epsNonPositive] else [])
  (reasons.isEmpty, reasons)

/-- Stage-2 failure reasons, one constructor per metric. -/
inductive S2Reason where
  | roeLow : ℚ → S2Reason
  | revenueDecline : ℚ → S2Reason
  | yoyLow : ℚ → S2Reason
  | epsGrowthLow : ℚ → S2Reason
  | epsLow : ℚ → S2Reason
  | debtHigh : ℚ → S2Reason
  | dividendUnstable : ℤ → S2Reason
deriving DecidableEq, Repr

/-- Stage-2 ROE check: excellent at 15, acceptable at 10. -/
def s2ROEPass (stock : StockData) : Bool :=
  if stock.ROE ≥ 15 then true else if stock.ROE ≥ 10 then true else false

/-- Stage-2 revenue-growth check: excellent at 10, acceptable at 0. -/
def s2RevenuePass (stock : StockData) : Bool :=
  if stock.RevenueGrowth ≥ 10 then true
  else if stock.RevenueGrowth ≥ 0 then true else false

/-- Stage-2 year-over-year check: excellent at `MinYoYGrowth`, acceptable at 0. -/
def s2YoYPass (c : ScreeningCriteria) (stock : StockData) : Bool :=
  if stock.YoYGrowth ≥ c.MinYoYGrowth then true
  else if stock.YoYGrowth ≥ 0 then true else false

/-- Stage-2 EPS-growth check: excellent at `MinEPSGrowth`, acceptable at 50. -/
def s2EPSGrowthPass (c : ScreeningCriteria) (stock : StockData) : Bool :=
  if stock.EPSGrowth ≥ c.MinEPSGrowth then true
  else if stock.EPSGrowth ≥ 50 then true else false

/-- Stage-2 EPS level check (binary): at least `MinEPS`. -/
def s2EPSPass (c : ScreeningCriteria) (stock : StockData) : Bool :=
  decide (stock.EPS ≥ c.MinEPS)

/-- Stage-2 debt-ratio check: excellent at 30, acceptable at 50. -/
def s2DebtPass (stock : StockData) : Bool :=
  if stock.DebtRatio ≤ 30 then true
  else if stock.DebtRatio ≤ 50 then true else false

/-- Stage-2 dividend-years check: excellent at 5, acceptable at 3. -/
def s2DividendPass (stock : StockData) : Bool :=
  if stock.DividendYears ≥ 5 then true
  else if stock.DividendYears ≥ 3 then true else false

/-- The `passCount` accumulated by `checkStage2Quality` over its 7 checks. -/
def stage2PassCount (c : ScreeningCriteria) (stock : StockData) : ℕ :=
  (s2ROEPass stock).toNat + (s2RevenuePass stock).toNat +
  (s2YoYPass c stock).toNat + (s2EPSGrowthPass c stock).toNat +
  (s2EPSPass c stock).toNat + (s2DebtPass stock).toNat +
  (s2DividendPass stock).toNat

/-- Go `checkStage2Quality`: 7 tiered checks; the stage passes when
`passCount / 7 ≥ 0.6`; each failing metric contributes one reason. -/
def checkStage2Quality (c : ScreeningCriteria) (stock : StockData) :
    Bool × List S2Reason :=
  let reasons : List S2Reason :=
    (if s2ROEPass stock then [] else [.roeLow stock.ROE]) ++
    (if s2RevenuePass stock then [] else [.revenueDecline stock.RevenueGrowth]) ++
    (if s2YoYPass c stock then [] else [.yoyLow stock.YoYGrowth]) ++
    (if s2EPSGrowthPass c stock then [] else [.epsGrowthLow stock.EPSGrowth]) ++
    (if s2EPSPass c stock then [] else [.epsLow stock.EPS]) ++
    (if s2DebtPass stock then [] else [.debtHigh stock.DebtRatio]) ++
    (if s2DividendPass stock then [] else [.dividendUnstable stock.DividendYears])
  (decide ((stage2PassCount c stock : ℚ) / 7 ≥ 0.6), reasons)

/-- Stage-3 failure reasons. -/
inductive S3Reason where
  | belowMA60 : ℚ → S3Reason
  | kOutOfZone : ℚ → S3Reason
  | dOutOfZone : ℚ → S3Reason
deriving DecidableEq, Repr

/-- Stage-3 moving-average check: evaluated only when price and MA60 are both
positive (`none` = skipped: neither counted nor a reason); pass at a
percentage difference of at least 5 ("strong") or at least 0 ("holding"). -/
def s3MAStatus (stock : StockData) : Option Bool :=
  if 0 < stock.Price ∧ 0 < stock.MA60 then
    let priceDiff := (stock.Price - stock.MA60) / stock.MA60 * 100
    some (if priceDiff ≥ 5 then true else if priceDiff ≥ 0 then true else false)
  else none

/-- Stage-3 %K check: buy zone [50, 80], watch zone [30, 90). -/
def s3KPass (stock : StockData) : Bool :=
  if stock.KValue ≥ 50 ∧ stock.KValue ≤ 80 then true
  else if stock.KValue ≥ 30 ∧ stock.KValue < 90 then true else false

/-- Stage-3 %D check: same zones as %K. -/
def s3DPass (stock : StockData) : Bool :=
  if stock.DValue ≥ 50 ∧ stock.DValue ≤ 80 then true
  else if stock.DValue ≥ 30 ∧ stock.DValue < 90 then true else false

/-- The `passCount` accumulated by `checkStage3Technical` over its 3 checks. -/
def stage3PassCount (stock : StockData) : ℕ :=
  (match s3MAStatus stock with | some true => 1 | _ => 0) +
  (s3KPass stock).toNat + (s3DPass stock).toNat

/-- Go `checkStage3Technical`: the stage passes when `passCount / 3 ≥ 0.5`. -/
def checkStage3Technical (stock : StockData) : Bool × List S3Reason :=
  let reasons : List S3Reason :=
    (match s3MAStatus stock with
      | some false => [.belowMA60 ((stock.Price - stock.MA60) / stock.MA60 * 100)]
      | _ => []) ++
    (if s3KPass stock then [] else [.kOutOfZone stock.KValue]) ++
    (if s3DPass stock then [] else [.dOutOfZone stock.DValue])
  (decide ((stage3PassCount stock : ℚ) / 3 ≥ 0.5), reasons)

/-- Go `meetsScreeningCriteria`: stage 1 is the only gate; stages 2 and 3
are evaluated for their diagnostics but do not change the return value. -/
def meetsScreeningCriteria (c : ScreeningCriteria) (stock : StockData) : Bool :=
  let stage1 := checkStage1Fundamentals stock
  if !stage1.1 then false
  else
    let _stage2 := checkStage2Quality c stock
    let _stage3 := checkStage3Technical stock
    stage1.1

/-- Go `calculateScore`: the composite score, accumulated term by term. -/
def calculateScore (stock : StockData) : ℚ :=
  min (stock.ROE / 30) 1 * 15
    + min (stock.RevenueGrowth / 20) 1 * 10
    + min (stock.YoYGrowth / 30) 1 * 15
    + min (stock.EPSGrowth / 200) 1 * 20
    + min (stock.EPS / 5) 1 * 5
    + (1 - stock.DebtRatio / 100) * 10
    + min ((stock.DividendYears : ℚ) / 10) 1 * 5
    + (if stock.MA60 < stock.Price then 15 else 0)
    + (if stock.KValue ≥ 50 ∧ stock.KValue ≤ 80 then 8 else 0)
    + (if stock.DValue ≥ 50 ∧ stock.DValue ≤ 80 then 7 else 0)

/-- The effect of the Go `calculateScore` method on the record (it stores the
score into the stock's `Score` field). -/
def setScore (stock : StockData) : StockData :=
  { stock with Score := calculateScore stock }

/-- Insertion of one record into a list ordered by descending `Score`.
`ScreenStocks` sorts with Go `sort.Slice` and the comparator
`Score i > Score j`; `sort.Slice` promises a permutation ordered by the
comparator (and explicitly not stability), and this insertion sort realizes
that contract. -/
def insertDesc (stock : StockData) : List StockData → List StockData
  | [] => [stock]
  | t :: ts =>
    if t.Score < stock.Score then stock :: t :: ts else t :: insertDesc stock ts

/-- Sort by `Score`, largest first (the `sort.Slice` call of `ScreenStocks`). -/
def sortByScoreDesc : List StockData → List StockData
  | [] => []
  | s :: ss => insertDesc s (sortByScoreDesc ss)

/-- Go `ScreenStocks`, from the point where every candidate's data has been
fetched (the network fetches, logging and pacing are the excluded
collaborator): keep the candidates that meet the screening criteria, store
their scores, and order the survivors by score descending. -/
def screenStocks (c : ScreeningCriteria) (stocks : List StockData) :
    List StockData :=
  sortByScoreDesc ((stocks.filter (fun s => meetsScreeningCriteria c s)).map setScore)

/-! Specification-side definitions.  These follow the wording of the
specification document, independently of the Go phrasing, and are compared
with the source embedding in the refinement theorems. -/

/-- Specification phrasing of the window maximum (a fold from the right,
against the source's left fold). -/
def specWindowMax (l : List ℚ) : ℚ := l.foldr max (l.headD 0)

/-- Specification phrasing of the window minimum. -/
def specWindowMin (l : List ℚ) : ℚ := l.foldr min (l.headD 0)

/-- Specification RSV: `100 * (close[i] - min(low[i-8..i])) /
(max(high[i-8..i]) - min(low[i-8..i]))`, and exactly 50 when the window's
high equals its low. -/
def specRSV (closes highs lows : List ℚ) (i : ℕ) : ℚ :=
  let hi := specWindowMax ((highs.drop (i - 8)).take 9)
  let lo := specWindowMin ((lows.drop (i - 8)).take 9)
  if hi = lo then 50 else 100 * (closes.getD i 0 - lo) / (hi - lo)

/-- Specification smoothing recursion, applied in chronological order:
`K_n = (2/3)K_{n-1} + (1/3)RSV_n` and `D_n = (2/3)D_{n-1} + (1/3)K_n`. -/
def specSmooth : ℚ → ℚ → List ℚ → ℚ × ℚ
  | k, _d, [] => (k, _d)
  | k, d, rsv :: rest =>
    specSmooth (2 / 3 * k + 1 / 3 * rsv)
      (2 / 3 * d + 1 / 3 * (2 / 3 * k + 1 / 3 * rsv)) rest

/-- Specification %K/%D: seeds K₀ = D₀ = 50 smoothed over the full RSV
sequence; both 50 when fewer than 9 samples exist. -/
def specKD (closes highs lows : List ℚ) : ℚ × ℚ :=
  if closes.length < 9 then (50, 50)
  else specSmooth 50 50
    ((List.range' 8 (closes.length - 8)).map (specRSV closes highs lows))

/-- The ten score terms as the specification lists them. -/
def specScoreTermList (stock : StockData) : List ℚ :=
  [min (stock.ROE / 30) 1 * 15,
   min (stock.RevenueGrowth / 20) 1 * 10,
   min (stock.YoYGrowth / 30) 1 * 15,
   min (stock.EPSGrowth / 200) 1 * 20,
   min (stock.EPS / 5) 1 * 5,
   (1 - stock.DebtRatio / 100) * 10,
   min ((stock.DividendYears : ℚ) / 10) 1 * 5,
   if stock.MA60 < stock.Price then 15 else 0,
   if stock.KValue ≥ 50 ∧ stock.KValue ≤ 80 then 8 else 0,
   if stock.DValue ≥ 50 ∧ stock.DValue ≤ 80 then 7 else 0]

/-- The seven fundamental terms of the composite score. -/
def fundamentalScorePart (stock : StockData) : ℚ :=
  min (stock.ROE / 30) 1 * 15
    + min (stock.RevenueGrowth / 20) 1 * 10
    + min (stock.YoYGrowth / 30) 1 * 15
    + min (stock.EPSGrowth / 200) 1 * 20
    + min (stock.EPS / 5) 1 * 5
    + (1 - stock.DebtRatio / 100) * 10
    + min ((stock.DividendYears : ℚ) / 10) 1 * 5

/-- The two KD golden-zone bonuses of the composite score. -/
def kdBonusPart (stock : StockData) : ℚ :=
  (if stock.KValue ≥ 50 ∧ stock.KValue ≤ 80 then 8 else 0)
    + (if stock.DValue ≥ 50 ∧ stock.DValue ≤ 80 then 7 else 0)

/-- The stage-2 pass count under the claim's collapsed cut points: ROE ≥ 10,
revenue growth ≥ 0, YoY growth ≥ 0, EPS growth ≥ 50, EPS ≥ MinEPS, debt
ratio ≤ 50, dividend years ≥ 3. -/
def specStage2PassCount (c : ScreeningCriteria) (stock : StockData) : ℕ :=
  (decide (stock.ROE ≥ 10)).toNat + (decide (stock.RevenueGrowth ≥ 0)).toNat +
  (decide (stock.YoYGrowth ≥ 0)).toNat + (decide (stock.EPSGrowth ≥ 50)).toNat +
  (decide (stock.EPS ≥ c.MinEPS)).toNat + (decide (stock.DebtRatio ≤ 50)).toNat +
  (decide (stock.DividendYears ≥ 3)).toNat

/-! Concrete records used by counterexamples and witnesses. -/

/-- A record with every numeric field 0 — the Go zero value of `StockData`,
which is what a freshly fetched stock holds before any indicator is set. -/
def blankStock : StockData where
  Code := ""
  Name := ""
  Price := 0
  Volume := 0
  ROE := 0
  RevenueGrowth := 0
  DebtRatio := 0
  GrossMargin := 0
  DividendYears := 0
  YoYGrowth := 0
  EPSGrowth := 0
  EPS := 0
  MA60 := 0
  KValue := 0
  DValue := 0
  AvgVolume := 0
  Score := 0

/-- A stage-1-passing baseline: every mandatory condition holds strictly. -/
def healthyStock : StockData :=
  { blankStock with
    Price := 100, ROE := 12, RevenueGrowth := 5, DebtRatio := 40,
    DividendYears := 4, YoYGrowth := 5, EPSGrowth := 10, EPS := 2,
    MA60 := 90, KValue := 60, DValue := 60 }

/-- The end-to-end scenario of the specification: metrics {ROE 20, revenue
growth 15, YoY growth 25, EPS growth 150, EPS 3, debt ratio 20, dividend
years 6}, price 110, MA60 100, %K 60, %D 65. -/
def scenarioA : StockData :=
  { blankStock with
    Price := 110, ROE := 20, RevenueGrowth := 15, DebtRatio := 20,
    DividendYears := 6, YoYGrowth := 25, EPSGrowth := 150, EPS := 3,
    MA60 := 100, KValue := 60, DValue := 65 }

/-- Metrics that hit every cap of the scoring function, with zero debt. -/
def maxedStock : StockData :=
  { blankStock with
    Price := 110, ROE := 30, RevenueGrowth := 20, DebtRatio := 0,
    DividendYears := 10, YoYGrowth := 30, EPSGrowth := 200, EPS := 5,
    MA60 := 100, KValue := 60, DValue := 65 }

/-- Pathological debt ratio and everything else zero. -/
def indebtedStock : StockData := { blankStock with DebtRatio := 2000 }

/-- Exactly 4 of the 7 stage-2 checks pass (revenue, YoY, EPS growth, EPS). -/
def fourOfSevenStock : StockData :=
  { blankStock with
    ROE := 9, RevenueGrowth := 5, DebtRatio := 60, DividendYears := 1,
    YoYGrowth := 5, EPSGrowth := 60, EPS := 2 }

/-- Exactly 5 of the 7 stage-2 checks pass (the debt ratio now acceptable). -/
def fiveOfSevenStock : StockData := { fourOfSevenStock with DebtRatio := 40 }

/-- A flat 10-sample series: every close, high and low is 5. -/
def flatTen : List ℚ := List.replicate 10 5

/-- A 9-sample series whose close escapes the high/low range: closes end at
500 while the highs top out at 2 and the lows at 1.  All entries are
positive and the three series have equal length, yet RSV = 49900. -/
def runawayCloses : List ℚ := [1, 1, 1, 1, 1, 1, 1, 1, 500]

/-- Highs for `runawayCloses`: one 2 among 1s, so the window has range 1. -/
def runawayHighs : List ℚ := [2, 1, 1, 1, 1, 1, 1, 1, 1]

/-- Lows for `runawayCloses`: all 1. -/
def runawayLows : List ℚ := List.replicate 9 1

/-! Claim C3: the stage-1 characterization and its boundary cases. -/

/-- C3: checkStage1Fundamentals returns false iff at least one of the six
mandatory conditions holds, the boolean equals the reason list being empty,
each violated condition contributes exactly one reason, and the stated
boundary inputs (ROE 0 vs 0.0001, debt ratio 79.999 vs 80) behave as
claimed. -/
theorem checkStage1_characterization (s : StockData) :
    ((checkStage1Fundamentals s).1 = false ↔
      (s.ROE ≤ 0 ∨ s.DebtRatio ≥ 80 ∨ s.RevenueGrowth ≤ -20 ∨
        s.YoYGrowth ≤ -30 ∨ s.EPSGrowth ≤ -50 ∨ s.EPS ≤ 0)) ∧
    ((checkStage1Fundamentals s).1 = (checkStage1Fundamentals s).2.isEmpty) ∧
    ((checkStage1Fundamentals s).2.length =
      (if s.ROE ≤ 0 then 1 else 0) + (if s.DebtRatio ≥ 80 then 1 else 0) +
      (if s.RevenueGrowth ≤ -20 then 1 else 0) +
      (if s.YoYGrowth ≤ -30 then 1 else 0) +
      (if s.EPSGrowth ≤ -50 then 1 else 0) + (if s.EPS ≤ 0 then 1 else 0)) ∧
    (checkStage1Fundamentals { healthyStock with ROE := 0 }).1 = false ∧
    (checkStage1Fundamentals { healthyStock with ROE := 0.0001 }).1 = true ∧
    (checkStage1Fundamentals { healthyStock with DebtRatio := 79.999 }).1 = true ∧
    (checkStage1Fundamentals { healthyStock with DebtRatio := 80 }).1 = false := by
  refine ⟨?_, rfl, ?_,
    by norm_num [checkStage1Fundamentals, healthyStock, blankStock],
    by norm_num [checkStage1Fundamentals, healthyStock, blankStock],
    by norm_num [checkStage1Fundamentals, healthyStock, blankStock],
    by norm_num [checkStage1Fundamentals, healthyStock, blankStock]⟩
  · simp only [checkStage1Fundamentals]
    split_ifs <;> simp_all
  · simp only [checkStage1Fundamentals]
    split_ifs <;> simp_all

/-! Claim C4: the score is the sum of the ten terms; the correct cap is 110,
not 100, because the ten weights add up to 110. -/

/-- C4 counterexample: a candidate with non-negative (zero) debt ratio whose
composite score is 110, above the claimed bound of 100. -/
theorem score_cap_counterexample :
    0 ≤ maxedStock.DebtRatio ∧ calculateScore maxedStock = 110 ∧
    ¬(calculateScore maxedStock ≤ 100) := by
  norm_num [calculateScore, maxedStock, blankStock, min_def]

/-- C4 (amended): calculateScore is exactly the sum of the ten listed terms;
the score is at most 110 (the sum of the ten listed weights — 15+10+15+20+5+
10+5+15+8+7 = 110, not 100) whenever the debt ratio is non-negative, and the
total can be negative when the debt ratio exceeds 100. -/
theorem calculateScore_terms_and_bounds :
    (∀ s : StockData, calculateScore s = (specScoreTermList s).sum) ∧
    (∀ s : StockData, 0 ≤ s.DebtRatio → calculateScore s ≤ 110) ∧
    (∃ s : StockData, 100 < s.DebtRatio ∧ calculateScore s < 0) := by
  refine ⟨?_, ?_, ⟨indebtedStock,
    by norm_num [indebtedStock, blankStock],
    by norm_num [calculateScore, indebtedStock, blankStock, min_def]⟩⟩
  · intro s
    simp only [specScoreTermList, List.sum_cons, List.sum_nil, calculateScore]
    ring
  · intro s hd
    have h1 : min (s.ROE / 30) 1 ≤ 1 := min_le_right _ _
    have h2 : min (s.RevenueGrowth / 20) 1 ≤ 1 := min_le_right _ _
    have h3 : min (s.YoYGrowth / 30) 1 ≤ 1 := min_le_right _ _
    have h4 : min (s.EPSGrowth / 200) 1 ≤ 1 := min_le_right _ _
    have h5 : min (s.EPS / 5) 1 ≤ 1 := min_le_right _ _
    have h6 : min ((s.DividendYears : ℚ) / 10) 1 ≤ 1 := min_le_right _ _
    simp only [calculateScore]
    split_ifs <;> linarith

/-- Witness for the amended C4 at concrete inputs. -/
theorem calculateScore_terms_and_bounds_witness :
    calculateScore maxedStock = (specScoreTermList maxedStock).sum ∧
    calculateScore maxedStock ≤ 110 :=
  ⟨calculateScore_terms_and_bounds.1 maxedStock,
    calculateScore_terms_and_bounds.2.1 maxedStock
      (by norm_num [maxedStock, blankStock])⟩

/-! Claim C7: a series of at least 9 but fewer than 60 samples does not get
an oscillator — calculateTechnicalIndicators returns before computing one. -/

/-- C7 counterexample: on a flat 10-sample series the %K/%D recursion yields
50, but calculateTechnicalIndicators leaves the zero-initialized K value
untouched, so the claimed "valid oscillator pair" is not produced. -/
theorem shortSeries_counterexample :
    flatTen.length = 10 ∧
    (calculateKDIndicator flatTen flatTen flatTen).K = 50 ∧
    (calculateTechnicalIndicators blankStock flatTen flatTen flatTen).KValue = 0 ∧
    (calculateTechnicalIndicators blankStock flatTen flatTen flatTen).KValue ≠
      (calculateKDIndicator flatTen flatTen flatTen).K := by
  norm_num [calculateTechnicalIndicators, calculateKDIndicator, flatTen, rsvAt,
    sliceMax, sliceMin, kdStep, List.range', List.replicate, max_def, min_def,
    blankStock]

/-- C7 (amended): when any of the three series has fewer than 60 samples,
calculateTechnicalIndicators returns the stock unchanged: the moving average
stays 0 only as the field's prior value, and no oscillator is computed
either — the 9-sample minimum inside calculateKDIndicator is unreachable
from this entry point. -/
theorem calculateTechnicalIndicators_short (s : StockData)
    (closes highs lows : List ℚ)
    (h : closes.length < 60 ∨ highs.length < 60 ∨ lows.length < 60) :
    calculateTechnicalIndicators s closes highs lows = s := by
  unfold calculateTechnicalIndicators
  rw [if_pos h]

/-- Witness for the amended C7 at a concrete 10-sample input. -/
theorem calculateTechnicalIndicators_short_witness :
    calculateTechnicalIndicators blankStock flatTen flatTen flatTen = blankStock :=
  calculateTechnicalIndicators_short blankStock flatTen flatTen flatTen
    (Or.inl (by norm_num [flatTen]))

/-! Claim C8: the end-to-end scenario.  The three stage verdicts are as the
specification says, but the score is 89, not 96. -/

/-- C8 counterexample: scenario A's composite score is not 96. -/
theorem scenarioA_score_counterexample : calculateScore scenarioA ≠ 96 := by
  norm_num [calculateScore, scenarioA, blankStock, min_def]

/-- C8 (amended): scenario A passes stage 1, passes stage 2 with 7 of 7
checks, passes stage 3 with 3 of 3 checks, and scores
10 + 7.5 + 12.5 + 15 + 3 + 8 + 3 + 15 + 8 + 7 = 89.0 (the specification
misprinted the ROE term — min(20/30, 1)·15 = 10, not 15 — and the dividend
term — min(6/10, 1)·5 = 3, not 5 — so its 96.0 total is wrong). -/
theorem scenarioA_results :
    (checkStage1Fundamentals scenarioA).1 = true ∧
    (checkStage2Quality defaultCriteria scenarioA).1 = true ∧
    stage2PassCount defaultCriteria scenarioA = 7 ∧
    (checkStage3Technical scenarioA).1 = true ∧
    stage3PassCount scenarioA = 3 ∧
    calculateScore scenarioA = 89 := by
  norm_num [checkStage1Fundamentals, checkStage2Quality, stage2PassCount,
    s2ROEPass, s2RevenuePass, s2YoYPass, s2EPSGrowthPass, s2EPSPass, s2DebtPass,
    s2DividendPass, checkStage3Technical, stage3PassCount, s3MAStatus, s3KPass,
    s3DPass, calculateScore, defaultCriteria, scenarioA, blankStock, min_def]

/-! Claim C10: the +15 price-above-MA bonus has no guard for the MA60 = 0
sentinel. -/

/-- C10: for a candidate whose price history is too short for the 60-day
moving average, calculateTechnicalIndicators leaves MA60 at its zero
sentinel, and calculateScore then grants the flat +15 bonus to any such
candidate with a positive price. -/
theorem shortHistory_gets_ma_bonus (s : StockData) (closes highs lows : List ℚ)
    (hlen : closes.length < 60) (hma : s.MA60 = 0) (hp : 0 < s.Price) :
    (calculateTechnicalIndicators s closes highs lows).MA60 = 0 ∧
    calculateScore (calculateTechnicalIndicators s closes highs lows)
      = fundamentalScorePart s + kdBonusPart s + 15 := by
  have ht : calculateTechnicalIndicators s closes highs lows = s := by
    unfold calculateTechnicalIndicators
    rw [if_pos (Or.inl hlen)]
  rw [ht]
  refine ⟨hma, ?_⟩
  simp only [calculateScore, fundamentalScorePart, kdBonusPart, hma, if_pos hp]
  ring

/-- Witness for C10 at a concrete short series and positive price. -/
theorem shortHistory_gets_ma_bonus_witness :
    (calculateTechnicalIndicators { blankStock with Price := 50 }
        flatTen flatTen flatTen).MA60 = 0 ∧
    calculateScore (calculateTechnicalIndicators { blankStock with Price := 50 }
        flatTen flatTen flatTen)
      = fundamentalScorePart { blankStock with Price := 50 }
        + kdBonusPart { blankStock with Price := 50 } + 15 :=
  shortHistory_gets_ma_bonus { blankStock with Price := 50 } flatTen flatTen
    flatTen (by norm_num [flatTen]) rfl (by norm_num [blankStock])

/-! Fold lemmas for the window extrema and the smoothing fold. -/

theorem foldl_min_comm (l : List ℚ) :
    ∀ a b : ℚ, l.foldl min (min a b) = min a (l.foldl min b) := by
  induction l with
  | nil => intro a b; rfl
  | cons x l ih =>
    intro a b
    simp only [List.foldl_cons]
    rw [min_assoc, ih]

theorem foldl_min_eq_foldr (l : List ℚ) : ∀ a : ℚ, l.foldl min a = l.foldr min a := by
  induction l with
  | nil => intro a; rfl
  | cons x l ih =>
    intro a
    simp only [List.foldl_cons, List.foldr_cons]
    rw [min_comm a x, foldl_min_comm, ih]

theorem foldl_max_comm (l : List ℚ) :
    ∀ a b : ℚ, l.foldl max (max a b) = max a (l.foldl max b) := by
  induction l with
  | nil => intro a b; rfl
  | cons x l ih =>
    intro a b
    simp only [List.foldl_cons]
    rw [max_assoc, ih]

theorem foldl_max_eq_foldr (l : List ℚ) : ∀ a : ℚ, l.foldl max a = l.foldr max a := by
  induction l with
  | nil => intro a; rfl
  | cons x l ih =>
    intro a
    simp only [List.foldl_cons, List.foldr_cons]
    rw [max_comm a x, foldl_max_comm, ih]

theorem foldl_min_le (l : List ℚ) : ∀ a : ℚ, l.foldl min a ≤ a := by
  induction l with
  | nil => intro a; exact le_refl a
  | cons x l ih =>
    intro a
    exact le_trans (ih (min a x)) (min_le_left a x)

theorem foldl_min_le_of_mem (l : List ℚ) :
    ∀ (a x : ℚ), x ∈ l → l.foldl min a ≤ x := by
  induction l with
  | nil => intro a x hx; cases hx
  | cons y l ih =>
    intro a x hx
    rcases List.mem_cons.1 hx with h | h
    · subst h
      exact le_trans (foldl_min_le l (min a x)) (min_le_right a x)
    · exact ih (min a y) x h

theorem le_foldl_max (l : List ℚ) : ∀ a : ℚ, a ≤ l.foldl max a := by
  induction l with
  | nil => intro a; exact le_refl a
  | cons x l ih =>
    intro a
    exact le_trans (le_max_left a x) (ih (max a x))

theorem le_foldl_max_of_mem (l : List ℚ) :
    ∀ (a x : ℚ), x ∈ l → x ≤ l.foldl max a := by
  induction l with
  | nil => intro a x hx; cases hx
  | cons y l ih =>
    intro a x hx
    rcases List.mem_cons.1 hx with h | h
    · subst h
      exact le_trans (le_max_right a x) (le_foldl_max l (max a x))
    · exact ih (max a y) x h

/-! Membership lemmas for the sort, and basic facts about the gate. -/

theorem mem_insertDesc (s a : StockData) :
    ∀ l : List StockData, a ∈ insertDesc s l ↔ a = s ∨ a ∈ l := by
  intro l
  induction l with
  | nil => simp [insertDesc]
  | cons t ts ih =>
    simp only [insertDesc]
    split_ifs with h
    · simp [List.mem_cons]
    · simp only [List.mem_cons, ih]
      tauto

theorem mem_sortByScoreDesc (a : StockData) :
    ∀ l : List StockData, a ∈ sortByScoreDesc l ↔ a ∈ l := by
  intro l
  induction l with
  | nil => simp [sortByScoreDesc]
  | cons s ss ih =>
    simp only [sortByScoreDesc, mem_insertDesc, ih, List.mem_cons]

theorem meetsScreeningCriteria_eq_stage1 (c : ScreeningCriteria) (s : StockData) :
    meetsScreeningCriteria c s = (checkStage1Fundamentals s).1 := by
  cases hb : (checkStage1Fundamentals s).1 <;>
    simp [meetsScreeningCriteria, hb]

theorem checkStage1_setScore (s : StockData) :
    checkStage1Fundamentals (setScore s) = checkStage1Fundamentals s := by
  cases s
  rfl

/-! Claim C1: membership in the pipeline's output is decided by stage 1
alone. -/

/-- C1: a processed candidate (with its score attached, as ScreenStocks
stores it) is a member of the returned list iff its stage-1 check passes;
moreover meetsScreeningCriteria returns exactly the stage-1 boolean, so the
stage-2/3 outcomes never affect membership. -/
theorem screenStocks_member_iff_stage1 (c : ScreeningCriteria)
    (stocks : List StockData) (s : StockData) (hs : s ∈ stocks) :
    (setScore s ∈ screenStocks c stocks ↔ (checkStage1Fundamentals s).1 = true) ∧
    meetsScreeningCriteria c s = (checkStage1Fundamentals s).1 := by
  refine ⟨?_, meetsScreeningCriteria_eq_stage1 c s⟩
  unfold screenStocks
  rw [mem_sortByScoreDesc]
  constructor
  · intro h
    rcases List.mem_map.1 h with ⟨t, ht, hts⟩
    have hmt : meetsScreeningCriteria c t = true := (List.mem_filter.1 ht).2
    have h1 : (checkStage1Fundamentals t).1 = true := by
      rw [← meetsScreeningCriteria_eq_stage1 c t]
      exact hmt
    calc (checkStage1Fundamentals s).1
        = (checkStage1Fundamentals (setScore s)).1 :=
          (congrArg Prod.fst (checkStage1_setScore s)).symm
      _ = (checkStage1Fundamentals (setScore t)).1 := by rw [hts]
      _ = (checkStage1Fundamentals t).1 := congrArg Prod.fst (checkStage1_setScore t)
      _ = true := h1
  · intro h1
    refine List.mem_map_of_mem _ (List.mem_filter.2 ⟨hs, ?_⟩)
    show meetsScreeningCriteria c s = true
    rw [meetsScreeningCriteria_eq_stage1 c s]
    exact h1

/-- Witness for C1 on a one-element universe. -/
theorem screenStocks_member_iff_stage1_witness :
    (setScore healthyStock ∈ screenStocks defaultCriteria [healthyStock] ↔
      (checkStage1Fundamentals healthyStock).1 = true) ∧
    meetsScreeningCriteria defaultCriteria healthyStock =
      (checkStage1Fundamentals healthyStock).1 :=
  screenStocks_member_iff_stage1 defaultCriteria [healthyStock] healthyStock
    (List.mem_singleton.2 rfl)

/-! Claim C2: the source KD computation equals the specification's
recursion over the RSV sequence. -/

theorem rsvAt_eq_specRSV (closes highs lows : List ℚ) (i : ℕ) :
    rsvAt closes highs lows i = specRSV closes highs lows i := by
  simp only [rsvAt, specRSV, sliceMax, sliceMin, specWindowMax, specWindowMin,
    foldl_max_eq_foldr, foldl_min_eq_foldr]
  split_ifs with h
  · rfl
  · ring

theorem foldl_kdStep_eq_specSmooth (l : List ℚ) : ∀ k d : ℚ,
    ((l.foldl kdStep { K := k, D := d }).K,
      (l.foldl kdStep { K := k, D := d }).D) = specSmooth k d l := by
  induction l with
  | nil => intro k d; rfl
  | cons r l ih =>
    intro k d
    simp only [List.foldl_cons, kdStep, specSmooth]
    exact ih _ _

/-- C2: for equal-length series, calculateKDIndicator returns exactly the
pair obtained by folding K = (2/3)K + (1/3)RSV, D = (2/3)D + (1/3)K in
chronological order over the full RSV sequence from seeds 50/50, and with
fewer than 9 samples it returns K = D = 50. -/
theorem calculateKDIndicator_eq_spec (closes highs lows : List ℚ)
    (_hh : highs.length = closes.length) (_hl : lows.length = closes.length) :
    (((calculateKDIndicator closes highs lows).K,
      (calculateKDIndicator closes highs lows).D) = specKD closes highs lows) ∧
    (closes.length < 9 →
      calculateKDIndicator closes highs lows = { K := 50, D := 50 }) := by
  constructor
  · by_cases h9 : closes.length < 9
    · simp only [calculateKDIndicator, specKD, if_pos h9]
    · have hne : (((List.range' 8 (closes.length - 8)).map
          (rsvAt closes highs lows)).isEmpty) = false := by
        rw [List.isEmpty_eq_false, Ne, List.map_eq_nil_iff, List.range'_eq_nil]
        omega
      simp only [calculateKDIndicator, specKD, if_neg h9, hne, Bool.false_eq_true,
        if_false]
      rw [List.map_congr_left fun i _ => rsvAt_eq_specRSV closes highs lows i]
      exact foldl_kdStep_eq_specSmooth _ 50 50
  · intro h9
    simp only [calculateKDIndicator, if_pos h9]

/-- Witness for C2 on the flat 10-sample series. -/
theorem calculateKDIndicator_eq_spec_witness :
    ((calculateKDIndicator flatTen flatTen flatTen).K,
      (calculateKDIndicator flatTen flatTen flatTen).D)
        = specKD flatTen flatTen flatTen :=
  (calculateKDIndicator_eq_spec flatTen flatTen flatTen rfl rfl).1

/-! Claim C5: the [0, 100] range invariant.  It fails for merely positive
series; it holds once the lows bound the closes from below and the highs
from above. -/

/-- C5 counterexample: a 9-sample series of three equal-length sequences of
positive rationals on which %K leaves [0, 100] (the close escapes the
high/low window, so RSV = 49900 and K = 50000/3). -/
theorem kdRange_counterexample :
    runawayCloses.length = 9 ∧
    runawayHighs.length = runawayCloses.length ∧
    runawayLows.length = runawayCloses.length ∧
    (∀ x ∈ runawayCloses, 0 < x) ∧ (∀ x ∈ runawayHighs, 0 < x) ∧
    (∀ x ∈ runawayLows, 0 < x) ∧
    ¬((calculateKDIndicator runawayCloses runawayHighs runawayLows).K ≤ 100) := by
  norm_num [calculateKDIndicator, runawayCloses, runawayHighs, runawayLows,
    rsvAt, sliceMax, sliceMin, kdStep, List.range', List.replicate, max_def,
    min_def]

/-- The element at index `i` of `l` is a member of the 9-sample window
`[i-8, i]` used by the RSV loop. -/
theorem getD_mem_window (l : List ℚ) (i : ℕ) (h8 : 8 ≤ i) (hi : i < l.length) :
    l.getD i 0 ∈ (l.drop (i - 8)).take 9 := by
  have h2 : 8 < ((l.drop (i - 8)).take 9).length := by
    simp only [List.length_take, List.length_drop]
    omega
  have e1 : ((l.drop (i - 8)).take 9)[8] = l.getD i 0 := by
    rw [List.getElem_take, List.getElem_drop, List.getD_eq_getElem l 0 (by omega)]
    congr 1
    omega
  rw [← e1]
  exact List.getElem_mem h2

/-- Every RSV value lies in [0, 100] when the lows bound the closes from
below and the highs bound them from above. -/
theorem rsvAt_bounds (closes highs lows : List ℚ)
    (hh : highs.length = closes.length) (hl : lows.length = closes.length)
    (hlc : ∀ i, i < closes.length → lows.getD i 0 ≤ closes.getD i 0)
    (hch : ∀ i, i < closes.length → closes.getD i 0 ≤ highs.getD i 0)
    (i : ℕ) (h8 : 8 ≤ i) (hi : i < closes.length) :
    0 ≤ rsvAt closes highs lows i ∧ rsvAt closes highs lows i ≤ 100 := by
  have hminle : sliceMin ((lows.drop (i - 8)).take 9) ≤ lows.getD i 0 :=
    foldl_min_le_of_mem _ _ _ (getD_mem_window lows i h8 (hl ▸ hi))
  have hmaxge : highs.getD i 0 ≤ sliceMax ((highs.drop (i - 8)).take 9) :=
    le_foldl_max_of_mem _ _ _ (getD_mem_window highs i h8 (hh ▸ hi))
  have hlo : sliceMin ((lows.drop (i - 8)).take 9) ≤ closes.getD i 0 :=
    le_trans hminle (hlc i hi)
  have hhi : closes.getD i 0 ≤ sliceMax ((highs.drop (i - 8)).take 9) :=
    le_trans (hch i hi) hmaxge
  simp only [rsvAt]
  split_ifs with heq
  · norm_num
  · have hlt : sliceMin ((lows.drop (i - 8)).take 9)
        < sliceMax ((highs.drop (i - 8)).take 9) :=
      lt_of_le_of_ne (le_trans hlo hhi) (fun h => heq h.symm)
    have hq : (closes.getD i 0 - sliceMin ((lows.drop (i - 8)).take 9)) /
        (sliceMax ((highs.drop (i - 8)).take 9) -
          sliceMin ((lows.drop (i - 8)).take 9)) ≤ 1 :=
      (div_le_one (by linarith)).2 (by linarith)
    have hq0 : 0 ≤ (closes.getD i 0 - sliceMin ((lows.drop (i - 8)).take 9)) /
        (sliceMax ((highs.drop (i - 8)).take 9) -
          sliceMin ((lows.drop (i - 8)).take 9)) :=
      div_nonneg (by linarith) (by linarith)
    constructor
    · linarith
    · linarith

/-- The smoothing fold keeps both components within [0, 100] as long as the
folded RSV values lie in [0, 100] (each step is a convex combination). -/
theorem foldl_kdStep_range : ∀ l : List ℚ, (∀ r ∈ l, 0 ≤ r ∧ r ≤ 100) →
    ∀ kd : KDResult, 0 ≤ kd.K → kd.K ≤ 100 → 0 ≤ kd.D → kd.D ≤ 100 →
    0 ≤ (l.foldl kdStep kd).K ∧ (l.foldl kdStep kd).K ≤ 100 ∧
    0 ≤ (l.foldl kdStep kd).D ∧ (l.foldl kdStep kd).D ≤ 100 := by
  intro l
  induction l with
  | nil =>
    intro _ kd h1 h2 h3 h4
    exact ⟨h1, h2, h3, h4⟩
  | cons r l ih =>
    intro hmem kd h1 h2 h3 h4
    have hr := hmem r (List.mem_cons_self _ _)
    simp only [List.foldl_cons]
    refine ih (fun x hx => hmem x (List.mem_cons_of_mem _ hx)) (kdStep kd r)
      ?_ ?_ ?_ ?_ <;> simp only [kdStep]
    · linarith [hr.1]
    · linarith [hr.2]
    · linarith [hr.1]
    · linarith [hr.2]

/-- C5 (amended): for equal-length series whose lows bound the closes from
below and whose highs bound them from above (pointwise), both %K and %D
returned by calculateKDIndicator lie within [0, 100].  Positivity of the
entries alone does not suffice — see the counterexample. -/
theorem kdRange_of_ordered (closes highs lows : List ℚ)
    (hh : highs.length = closes.length) (hl : lows.length = closes.length)
    (hlc : ∀ i, i < closes.length → lows.getD i 0 ≤ closes.getD i 0)
    (hch : ∀ i, i < closes.length → closes.getD i 0 ≤ highs.getD i 0) :
    0 ≤ (calculateKDIndicator closes highs lows).K ∧
    (calculateKDIndicator closes highs lows).K ≤ 100 ∧
    0 ≤ (calculateKDIndicator closes highs lows).D ∧
    (calculateKDIndicator closes highs lows).D ≤ 100 := by
  by_cases h9 : closes.length < 9
  · simp only [calculateKDIndicator, if_pos h9]
    norm_num
  · have hne : (((List.range' 8 (closes.length - 8)).map
        (rsvAt closes highs lows)).isEmpty) = false := by
      rw [List.isEmpty_eq_false, Ne, List.map_eq_nil_iff, List.range'_eq_nil]
      omega
    simp only [calculateKDIndicator, if_neg h9, hne, Bool.false_eq_true, if_false]
    apply foldl_kdStep_range
    · intro r hr
      rcases List.mem_map.1 hr with ⟨i, hi, rfl⟩
      have hmem := List.mem_range'_1.1 hi
      exact rsvAt_bounds closes highs lows hh hl hlc hch i hmem.1 (by omega)
    · norm_num
    · norm_num
    · norm_num
    · norm_num

/-- Witness for the amended C5 on the flat 10-sample series. -/
theorem kdRange_of_ordered_witness :
    0 ≤ (calculateKDIndicator flatTen flatTen flatTen).K ∧
    (calculateKDIndicator flatTen flatTen flatTen).K ≤ 100 ∧
    0 ≤ (calculateKDIndicator flatTen flatTen flatTen).D ∧
    (calculateKDIndicator flatTen flatTen flatTen).D ≤ 100 :=
  kdRange_of_ordered flatTen flatTen flatTen rfl rfl
    (fun _ _ => le_refl _) (fun _ _ => le_refl _)

/-! Claim C6: the stage-2 pass rule.  Under the program's criteria the
two-tier checks collapse to the claim's cut points, and the 0.6 ratio
threshold means at least 5 of 7. -/

theorem s2ROEPass_eq (s : StockData) : s2ROEPass s = decide (s.ROE ≥ 10) := by
  simp only [s2ROEPass]
  split_ifs with h1 h2
  · exact (decide_eq_true (by linarith)).symm
  · exact (decide_eq_true h2).symm
  · exact (decide_eq_false h2).symm

theorem s2RevenuePass_eq (s : StockData) :
    s2RevenuePass s = decide (s.RevenueGrowth ≥ 0) := by
  simp only [s2RevenuePass]
  split_ifs with h1 h2
  · exact (decide_eq_true (by linarith)).symm
  · exact (decide_eq_true h2).symm
  · exact (decide_eq_false h2).symm

theorem s2YoYPass_eq (c : ScreeningCriteria) (s : StockData)
    (hyoy : 0 ≤ c.MinYoYGrowth) : s2YoYPass c s = decide (s.YoYGrowth ≥ 0) := by
  simp only [s2YoYPass]
  split_ifs with h1 h2
  · exact (decide_eq_true (by linarith)).symm
  · exact (decide_eq_true h2).symm
  · exact (decide_eq_false h2).symm

theorem s2EPSGrowthPass_eq (c : ScreeningCriteria) (s : StockData)
    (heps : 50 ≤ c.MinEPSGrowth) :
    s2EPSGrowthPass c s = decide (s.EPSGrowth ≥ 50) := by
  simp only [s2EPSGrowthPass]
  split_ifs with h1 h2
  · exact (decide_eq_true (by linarith)).symm
  · exact (decide_eq_true h2).symm
  · exact (decide_eq_false h2).symm

theorem s2DebtPass_eq (s : StockData) : s2DebtPass s = decide (s.DebtRatio ≤ 50) := by
  simp only [s2DebtPass]
  split_ifs with h1 h2
  · exact (decide_eq_true (by linarith)).symm
  · exact (decide_eq_true h2).symm
  · exact (decide_eq_false h2).symm

theorem s2DividendPass_eq (s : StockData) :
    s2DividendPass s = decide (s.DividendYears ≥ 3) := by
  simp only [s2DividendPass]
  split_ifs with h1 h2
  · exact (decide_eq_true (by omega)).symm
  · exact (decide_eq_true h2).symm
  · exact (decide_eq_false h2).symm

/-- The 0.6 threshold on a count of 7: `n/7 ≥ 0.6` iff `n ≥ 5`. -/
theorem ratio_seven (n : ℕ) : ((n : ℚ) / 7 ≥ 0.6) ↔ 5 ≤ n := by
  rw [ge_iff_le, le_div_iff₀ (by norm_num : (0 : ℚ) < 7)]
  constructor
  · intro h
    by_contra hn
    push_neg at hn
    have h4 : (n : ℚ) ≤ 4 := by exact_mod_cast Nat.lt_succ_iff.1 hn
    norm_num at h
    linarith
  · intro h
    have h5 : (5 : ℚ) ≤ (n : ℚ) := by exact_mod_cast h
    norm_num
    linarith

/-- C6: with the program's criteria (MinYoYGrowth non-negative and
MinEPSGrowth at least 50, as the installed defaults 10 and 100 are), stage
2 passes iff at least 5 of the 7 excellent-or-acceptable checks under the
claim's cut points hold; the internal pass counter equals the claim's
count; 4 of 7 fails and 5 of 7 passes. -/
theorem checkStage2_pass_iff (c : ScreeningCriteria) (s : StockData)
    (hyoy : 0 ≤ c.MinYoYGrowth) (heps : 50 ≤ c.MinEPSGrowth) :
    ((checkStage2Quality c s).1 = true ↔ 5 ≤ specStage2PassCount c s) ∧
    stage2PassCount c s = specStage2PassCount c s ∧
    (stage2PassCount defaultCriteria fourOfSevenStock = 4 ∧
      (checkStage2Quality defaultCriteria fourOfSevenStock).1 = false) ∧
    (stage2PassCount defaultCriteria fiveOfSevenStock = 5 ∧
      (checkStage2Quality defaultCriteria fiveOfSevenStock).1 = true) := by
  have hcnt : stage2PassCount c s = specStage2PassCount c s := by
    simp only [stage2PassCount, specStage2PassCount, s2ROEPass_eq,
      s2RevenuePass_eq, s2YoYPass_eq c s hyoy, s2EPSGrowthPass_eq c s heps,
      s2DebtPass_eq, s2DividendPass_eq, s2EPSPass]
  refine ⟨?_, hcnt, ?_, ?_⟩
  · have hfst : (checkStage2Quality c s).1
        = decide ((stage2PassCount c s : ℚ) / 7 ≥ 0.6) := rfl
    rw [hfst, decide_eq_true_eq, hcnt]
    exact ratio_seven _
  · constructor
    · norm_num [stage2PassCount, s2ROEPass, s2RevenuePass, s2YoYPass,
        s2EPSGrowthPass, s2EPSPass, s2DebtPass, s2DividendPass,
        defaultCriteria, fourOfSevenStock, blankStock]
    · norm_num [checkStage2Quality, stage2PassCount, s2ROEPass, s2RevenuePass,
        s2YoYPass, s2EPSGrowthPass, s2EPSPass, s2DebtPass, s2DividendPass,
        defaultCriteria, fourOfSevenStock, blankStock]
  · constructor
    · norm_num [stage2PassCount, s2ROEPass, s2RevenuePass, s2YoYPass,
        s2EPSGrowthPass, s2EPSPass, s2DebtPass, s2DividendPass,
        defaultCriteria, fiveOfSevenStock, fourOfSevenStock, blankStock]
    · norm_num [checkStage2Quality, stage2PassCount, s2ROEPass, s2RevenuePass,
        s2YoYPass, s2EPSGrowthPass, s2EPSPass, s2DebtPass, s2DividendPass,
        defaultCriteria, fiveOfSevenStock, fourOfSevenStock, blankStock]

/-- Witness for C6 with the installed default criteria. -/
theorem checkStage2_pass_iff_witness :
    (checkStage2Quality defaultCriteria scenarioA).1 = true ↔
      5 ≤ specStage2PassCount defaultCriteria scenarioA :=
  (checkStage2_pass_iff defaultCriteria scenarioA
    (by norm_num [defaultCriteria]) (by norm_num [defaultCriteria])).1

end Lyla
